import Mathlib

/-!
Verification development for the clinical research data capture app
(src/clinical_research_app.py). The app renders Streamlit forms whose
submissions build SQL INSERT/UPDATE text by string interpolation and
execute it through a thin gateway. The definitions below are a shallow
embedding of those code paths: each form becomes a Lean function from
the widget inputs to the logical row(s) whose column values are exactly
the characters the code interpolates into the generated SQL statement.
String-typed row fields hold the raw characters placed between the SQL
quote marks; SqlVal distinguishes quoted literals from NULL, booleans,
numbers and the CURRENT_USER / CURRENT_DATE expressions.
-/

set_option autoImplicit false

namespace ClinicalApp

/-- The single-quote character (code point 39), written via Char.ofNat to
keep SQL-quoting logic explicit. -/
def squote : Char := Char.ofNat 39

/-- Character-level embedding of the Python expression
s.replace(chr(39), chr(39)*2) used by every escaped write path: each
single-quote character is replaced by two, every other character is kept. -/
def escapeQuotesList : List Char → List Char
  | [] => []
  | c :: cs =>
      if c = squote then squote :: squote :: escapeQuotesList cs
      else c :: escapeQuotesList cs

/-- String form of the quote-doubling escape used by the write paths. -/
def escapeQuotes (s : String) : String :=
  String.mk (escapeQuotesList s.data)

/-- Checker for the spec property that an output is the input with every
single-quote character doubled and no other character altered. -/
def quoteDoubledChk : List Char → List Char → Bool
  | [], [] => true
  | c :: xs, d :: ys =>
      if c = squote then
        d = squote &&
          (match ys with
           | e :: ys2 => e = squote && quoteDoubledChk xs ys2
           | [] => false)
      else
        c = d && quoteDoubledChk xs ys
  | _, _ => false

/-- The relation: b is a with every single-quote doubled and nothing else
altered. -/
def QuoteDoubling (a b : String) : Prop :=
  quoteDoubledChk a.data b.data = true

/-- A value interpolated into a generated SQL statement: a quoted string
literal (carrying the raw characters placed between the quote marks), a
number, a boolean, the keyword NULL, or one of the ambient SQL expressions
the code interpolates verbatim. -/
inductive SqlVal where
  | str (s : String)
  | num (n : Nat)
  | boolV (b : Bool)
  | null
  | currentDate
  | currentUser
  deriving DecidableEq, Repr

/-! ## Create Study form (src/clinical_research_app.py lines 257 to 312) -/

/-- Widget inputs of the Create New Study form. The three text inputs and
the description text area are free text; study type and phase come from
select boxes; target enrollment from a number input with minimum 1. -/
structure CreateStudyInput where
  study_name : String
  study_number : String
  pi_name : String
  study_type : String
  study_phase : String
  target_enrollment : Nat
  study_description : String
  deriving DecidableEq, Repr

/-- Row inserted into STUDIES; each String field holds the exact characters
interpolated between the SQL quotes for that column. -/
structure StudiesRow where
  study_id : String
  study_name : String
  study_number : String
  principal_investigator : String
  study_phase : String
  study_type : String
  study_description : String
  target_enrollment : Nat
  current_enrollment : Nat
  study_status : String
  deriving DecidableEq, Repr

/-- Row inserted into USER_STUDY_ACCESS by the create-study path. -/
structure UserStudyAccessRow where
  user_name : SqlVal
  study_id : String
  access_role : String
  is_active : Bool
  deriving DecidableEq, Repr

/-- Submission handler of the Create New Study form. The Python gate
is the truthiness test on the three required strings; on pass it escapes
name, PI and description (description only when non-empty, mirroring the
conditional expression in the code), interpolates the protocol number raw,
and issues the STUDIES insert followed by the access-grant insert. The
timestamp-derived study identifier is a parameter. Returns none when the
presence check fails (no SQL is executed). -/
def create_study_form (i : CreateStudyInput) (study_id : String) :
    Option (StudiesRow × UserStudyAccessRow) :=
  if i.study_name ≠ "" ∧ i.study_number ≠ "" ∧ i.pi_name ≠ "" then
    let safe_name := escapeQuotes i.study_name
    let safe_pi := escapeQuotes i.pi_name
    let safe_desc := if i.study_description ≠ "" then escapeQuotes i.study_description else ""
    some ({ study_id := study_id
            study_name := safe_name
            study_number := i.study_number
            principal_investigator := safe_pi
            study_phase := i.study_phase
            study_type := i.study_type
            study_description := safe_desc
            target_enrollment := i.target_enrollment
            current_enrollment := 0
            study_status := "ACTIVE" },
          { user_name := SqlVal.currentUser
            study_id := study_id
            access_role := "PI"
            is_active := true })
  else none

/-! ## Quick Note form (lines 331 to 361) -/

/-- Widget inputs of the Quick Research Note form; title and content are
free text, type and priority are select boxes. -/
structure QuickNoteInput where
  note_type : String
  note_title : String
  note_text : String
  note_priority : String
  deriving DecidableEq, Repr

/-- Row inserted into RESEARCH_NOTES. -/
structure ResearchNotesRow where
  note_id : String
  study_id : String
  note_type : String
  note_title : String
  note_text : String
  note_priority : String
  note_date : SqlVal
  deriving DecidableEq, Repr

/-- Submission handler of the Quick Note form: requires title and content
non-empty, escapes both, inserts with note date CURRENT_DATE. -/
def quick_note_form (i : QuickNoteInput) (note_id study_id : String) :
    Option ResearchNotesRow :=
  if i.note_title ≠ "" ∧ i.note_text ≠ "" then
    some { note_id := note_id
           study_id := study_id
           note_type := i.note_type
           note_title := escapeQuotes i.note_title
           note_text := escapeQuotes i.note_text
           note_priority := i.note_priority
           note_date := SqlVal.currentDate }
  else none

/-! ## Observation form (lines 379 to 420) -/

/-- Widget inputs of the Clinical Observation form. Participant comes from
a select box over enrolled participant numbers; the date from a date
widget (its string rendering); measurement name, value and unit are free
text inputs. -/
structure ObservationInput where
  participant : String
  obs_date : String
  visit_number : Nat
  measurement_name : String
  measurement_value : String
  measurement_unit : String
  deriving DecidableEq, Repr

/-- Row inserted into OBSERVATIONS. The unit column is a quoted literal
when the unit input is non-empty and the NULL keyword otherwise,
mirroring the unit_clause conditional in the code. -/
structure ObservationsRow where
  observation_id : String
  study_id : String
  participant_id : String
  observation_date : String
  visit_number : Nat
  measurement_name : String
  measurement_value : String
  measurement_unit : SqlVal
  deriving DecidableEq, Repr

/-- Submission handler of the Observation form: requires participant,
measurement name and value non-empty; escapes only the measurement name;
interpolates the measurement value raw; unit becomes NULL when empty. -/
def observation_form (i : ObservationInput)
    (obs_id study_id participant_id : String) : Option ObservationsRow :=
  if i.participant ≠ "" ∧ i.measurement_name ≠ "" ∧ i.measurement_value ≠ "" then
    some { observation_id := obs_id
           study_id := study_id
           participant_id := participant_id
           observation_date := i.obs_date
           visit_number := i.visit_number
           measurement_name := escapeQuotes i.measurement_name
           measurement_value := i.measurement_value
           measurement_unit :=
             if i.measurement_unit ≠ "" then SqlVal.str i.measurement_unit
             else SqlVal.null }
  else none

/-! ## Finding form (lines 426 to 468) -/

/-- Widget inputs of the Clinical Finding form. relationship_sel and
sae_checked are the values of the widgets shown only in the Adverse Event
branch; for any other type the code ignores them (lines 430 to 435). -/
structure FindingInput where
  finding_type : String
  severity : String
  relationship_sel : String
  sae_checked : Bool
  finding_description : String
  action_taken : String
  outcome : String
  deriving DecidableEq, Repr

/-- The relationship value bound before submit: the select box value in
the Adverse Event branch, the fixed string otherwise. -/
def finding_relationship (i : FindingInput) : String :=
  if i.finding_type = "Adverse Event" then i.relationship_sel else "Not Applicable"

/-- The SAE flag bound before submit: the checkbox in the Adverse Event
branch, false otherwise. -/
def finding_sae (i : FindingInput) : Bool :=
  if i.finding_type = "Adverse Event" then i.sae_checked else false

/-- Row inserted into FINDINGS. action_taken is a quoted literal holding
the escaped text when the input is non-empty and NULL otherwise,
mirroring the action_clause conditional. -/
structure FindingsRow where
  finding_id : String
  study_id : String
  finding_type : String
  finding_description : String
  severity : String
  relationship_to_intervention : String
  action_taken : SqlVal
  outcome : String
  sae_reported : Bool
  deriving DecidableEq, Repr

/-- Submission handler of the Finding form: requires a non-empty
description; escapes description and action taken; stores the
branch-determined relationship and SAE flag. -/
def finding_form (i : FindingInput) (finding_id study_id : String) :
    Option FindingsRow :=
  if i.finding_description ≠ "" then
    some { finding_id := finding_id
           study_id := study_id
           finding_type := i.finding_type
           finding_description := escapeQuotes i.finding_description
           severity := i.severity
           relationship_to_intervention := finding_relationship i
           action_taken :=
             if i.action_taken ≠ "" then SqlVal.str (escapeQuotes i.action_taken)
             else SqlVal.null
           outcome := i.outcome
           sae_reported := finding_sae i }
  else none

/-! ## Enroll Participant form (lines 474 to 525) -/

/-- Widget inputs of the Enroll New Participant form. The participant
number and demographic group are free text; the two dates are date
widgets (their string renderings, never empty in the source since the
widgets always hold a date); the two eligibility checkboxes are booleans. -/
structure EnrollInput where
  participant_number : String
  enrollment_date : String
  consent_date : String
  demographic_group : String
  inclusion_met : Bool
  exclusion_met : Bool
  deriving DecidableEq, Repr

/-- Row inserted into PARTICIPANTS. demographic_group is a quoted literal
holding the raw input when non-empty and NULL otherwise, mirroring the
demo_clause conditional. -/
structure ParticipantsRow where
  participant_id : String
  study_id : String
  participant_number : String
  enrollment_date : String
  consent_date : String
  demographic_group : SqlVal
  inclusion_criteria_met : Bool
  exclusion_criteria_met : Bool
  participant_status : String
  deriving DecidableEq, Repr

/-- The second statement of a successful enrollment: UPDATE STUDIES SET
current_enrollment = current_enrollment + 1 WHERE study_id matches. -/
structure EnrollmentUpdate where
  study_id : String
  increment : Nat
  deriving DecidableEq, Repr

/-- The non-blocking eligibility warning shown above the submit button
(line 491): inclusion unmet or exclusion met. -/
def eligibility_warning (i : EnrollInput) : Bool :=
  !i.inclusion_met || i.exclusion_met

/-- Submission handler of the Enroll Participant form: requires the
participant number and the two dates truthy; builds the deterministic
participant identifier, inserts one participant row, then issues one
counter update of +1 against the owning study. The eligibility booleans
are stored but never gate the write. -/
def enroll_participant_form (i : EnrollInput) (study_id : String) :
    Option (ParticipantsRow × EnrollmentUpdate) :=
  if i.participant_number ≠ "" ∧ i.enrollment_date ≠ "" ∧ i.consent_date ≠ "" then
    let participant_id := "PART_" ++ study_id ++ "_" ++ i.participant_number
    some ({ participant_id := participant_id
            study_id := study_id
            participant_number := i.participant_number
            enrollment_date := i.enrollment_date
            consent_date := i.consent_date
            demographic_group :=
              if i.demographic_group ≠ "" then SqlVal.str i.demographic_group
              else SqlVal.null
            inclusion_criteria_met := i.inclusion_met
            exclusion_criteria_met := i.exclusion_met
            participant_status := "ACTIVE" },
          { study_id := study_id, increment := 1 })
  else none

/-! ## Cached lookups (lines 68 to 117)

Each read accessor is wrapped with the Streamlit data cache decorator.
The decorator takes an optional ttl in seconds; when no ttl is given the
cached entry never expires on its own and is dropped only by the manual
cache clear issued after every successful write. The configuration of
each accessor is embedded as the ttl actually passed at its decoration
site. -/

/-- Cache policy of one accessor: ttl in seconds, none when the decorator
is applied without a ttl argument. -/
structure CacheConfig where
  ttl : Option Nat
  deriving DecidableEq, Repr

/-- Line 68: the dashboard metrics accessor is decorated with the bare
cache decorator, no ttl argument. -/
def get_dashboard_metrics_cache : CacheConfig := { ttl := none }

/-- Line 85: the active studies accessor is decorated with ttl 60. -/
def get_active_studies_cache : CacheConfig := { ttl := some 60 }

/-- Line 101: the study types accessor is decorated with ttl 300. -/
def get_study_types_cache : CacheConfig := { ttl := some 300 }

/-- Line 110: the note types accessor is decorated with ttl 300. -/
def get_note_types_cache : CacheConfig := { ttl := some 300 }

/-! ## Query gateway (lines 119 to 125) -/

/-- Outcome of handing a SQL string to the underlying connection: either
a tabular result (a list of rows) or an execution fault with a message. -/
inductive QueryOutcome (α : Type) where
  | ok (rows : List α)
  | fault (msg : String)
  deriving DecidableEq, Repr

/-- What the gateway produces: the tabular value returned to the caller,
plus the error text shown inline to the user (none when no error banner
is rendered). The function is total: the try/except in the source means
no exception ever propagates to the caller. -/
structure GatewayResult (α : Type) where
  rows : List α
  error_shown : Option String
  deriving DecidableEq, Repr

/-- The execute_query gateway: on success it returns the result as is; on
any fault it renders the error inline and substitutes an empty result. -/
def execute_query {α : Type} (outcome : QueryOutcome α) : GatewayResult α :=
  match outcome with
  | QueryOutcome.ok rows => { rows := rows, error_shown := none }
  | QueryOutcome.fault msg =>
      { rows := [], error_shown := some ("Query error: " ++ msg) }

/-! ## Search Notes query builder (lines 539 to 558) -/

/-- Inputs of the Search Notes tab: the free-text search box and the
string rendering of the from-date widget. -/
structure SearchInput where
  search_text : String
  date_from : String
  deriving DecidableEq, Repr

/-- A conjunct of the WHERE clause the search tab builds: the note-date
lower bound carrying the rendered from-date, or the case-insensitive
substring filter over UPPER(note_title) and UPPER(note_text) carrying
the escaped, uppercased needle. -/
inductive WhereClause where
  | dateLowerBound (date_from : String)
  | textFilter (safe_search : String)
  deriving DecidableEq, Repr

/-- Shape of the generated notes query: its WHERE conjuncts in build
order, whether it orders by note date descending, and its row limit. -/
structure NotesQuery where
  whereClauses : List WhereClause
  orderByNoteDateDesc : Bool
  limit : Nat
  deriving DecidableEq, Repr

/-- Default of the from-date widget (line 540): thirty days before today,
with days counted as integers. -/
def search_date_from_default (today : Int) : Int := today - 30

/-- The query the Search button builds: the date lower bound always, the
text filter appended exactly when the search text is non-empty, with the
needle escaped by quote doubling and uppercased; ordered by note date
descending, limited to 100 rows. -/
def search_notes_query (i : SearchInput) : NotesQuery :=
  let clauses := [WhereClause.dateLowerBound i.date_from]
  let clauses :=
    if i.search_text ≠ "" then
      clauses ++ [WhereClause.textFilter ((escapeQuotes i.search_text).toUpper)]
    else clauses
  { whereClauses := clauses, orderByNoteDateDesc := true, limit := 100 }

/-! ## Active studies progress indicator (lines 242 to 243) -/

/-- The enrollment percentage rendered per study row, with the source
zero-target guard: current over target times 100 when target is positive,
0 otherwise. Arithmetic is modelled over the exact rationals; the guard
is an integer comparison exactly as in the source. -/
def enroll_pct (current_enrollment target_enrollment : Nat) : ℚ :=
  if target_enrollment > 0 then
    (current_enrollment : ℚ) / (target_enrollment : ℚ) * 100
  else 0

/-! ## Write operations and the enrollment counter

The write statements the app can issue are the five form submissions.
The only statement anywhere in the source that modifies the
current_enrollment column of an existing STUDIES row is the UPDATE at
lines 513 to 517 of the enrollment path; every other write is an INSERT
of a fresh row into another table (or, for create-study, of a fresh
study row with its own counter starting at 0). -/

/-- One write interaction with the system, tagged with the inputs and the
generated identifiers it uses. -/
inductive WriteOp where
  | createStudy (i : CreateStudyInput) (new_id : String)
  | quickNote (i : QuickNoteInput) (note_id study_id : String)
  | observation (i : ObservationInput) (obs_id study_id participant_id : String)
  | finding (i : FindingInput) (finding_id study_id : String)
  | enroll (i : EnrollInput) (study_id : String)
  deriving DecidableEq, Repr

/-- Effect of one write operation on the current_enrollment counter of the
existing study sid: only a successful enrollment against sid changes it,
by exactly +1. -/
def enrollmentCounter (sid : String) (op : WriteOp) (c : Nat) : Nat :=
  match op with
  | WriteOp.enroll i study_id =>
      if study_id = sid ∧ (enroll_participant_form i study_id).isSome then c + 1
      else c
  | _ => c

/-- Effect of one write operation on the PARTICIPANTS rows belonging to
the study sid: a successful enrollment against sid appends its single row. -/
def participantsEffect (sid : String) (op : WriteOp)
    (ps : List ParticipantsRow) : List ParticipantsRow :=
  match op with
  | WriteOp.enroll i study_id =>
      match enroll_participant_form i study_id with
      | some (r, _) => if study_id = sid then ps ++ [r] else ps
      | none => ps
  | _ => ps

/-! ## Helper lemmas -/

/-- The quote-doubling escape satisfies the checker: its output is the
input with every single-quote doubled and no other character altered. -/
theorem quoteDoubledChk_escape (l : List Char) :
    quoteDoubledChk l (escapeQuotesList l) = true := by
  induction l with
  | nil => rfl
  | cons c cs ih =>
      by_cases h : c = squote
      · subst h
        simp [escapeQuotesList, quoteDoubledChk, ih]
      · simp [escapeQuotesList, quoteDoubledChk, h, ih]

/-- String-level form of the previous lemma. -/
theorem quoteDoubling_escapeQuotes (s : String) : QuoteDoubling s (escapeQuotes s) :=
  quoteDoubledChk_escape s.data

/-- No single write operation decreases the enrollment counter of any
study. -/
theorem le_enrollmentCounter (sid : String) (op : WriteOp) (c : Nat) :
    c ≤ enrollmentCounter sid op c := by
  cases op with
  | enroll i study_id =>
      simp only [enrollmentCounter]
      split
      · exact Nat.le_succ c
      · exact Nat.le_refl c
  | createStudy i new_id => exact Nat.le_refl c
  | quickNote i note_id study_id => exact Nat.le_refl c
  | observation i obs_id study_id participant_id => exact Nat.le_refl c
  | finding i finding_id study_id => exact Nat.le_refl c

/-! ## Claim theorems -/

/-- Claim C3, counterexample: the claim states all four cached lookups
carry a time-boxed expiry, but the dashboard-metrics accessor is
decorated with no ttl at all, so its cache entry has no time box. -/
theorem c3_counterexample : (get_dashboard_metrics_cache.ttl).isSome = false := rfl

/-- Claim C3 (amended): the active-study-list accessor is time-boxed at
60 seconds, the two reference-list accessors (study types, note types)
at the longer horizon of 300 seconds, while the dashboard-metrics
accessor is cached with no time box and is refreshed only by the manual
cache invalidation issued after every write. -/
theorem c3_cache_config_amended :
    get_dashboard_metrics_cache.ttl = none ∧
    get_active_studies_cache.ttl = some 60 ∧
    get_study_types_cache.ttl = some 300 ∧
    get_note_types_cache.ttl = some 300 ∧
    60 < 300 := by
  refine ⟨rfl, rfl, rfl, rfl, ?_⟩
  decide

/-- Claim C4: every Finding submission whose selected type is not the
Adverse Event type stores the fixed relationship value and a false SAE
flag, whatever the values of the branch widgets were. -/
theorem c4_non_adverse_event_defaults
    (i : FindingInput) (fid sid : String) (r : FindingsRow)
    (htype : i.finding_type ≠ "Adverse Event")
    (h : finding_form i fid sid = some r) :
    r.relationship_to_intervention = "Not Applicable" ∧ r.sae_reported = false := by
  unfold finding_form at h
  split at h
  · simp only [Option.some.injEq] at h
    subst h
    constructor
    · show finding_relationship i = "Not Applicable"
      unfold finding_relationship
      rw [if_neg htype]
    · show finding_sae i = false
      unfold finding_sae
      rw [if_neg htype]
  · exact absurd h (by simp)

/-- Concrete Finding submission for the C4 witness: type Other while the
branch widgets still hold an affirmative relationship and a checked SAE
box. -/
def c4_input : FindingInput :=
  { finding_type := "Other", severity := "Mild", relationship_sel := "Definite"
    sae_checked := true, finding_description := "rash", action_taken := ""
    outcome := "Resolved" }

/-- The row the C4 witness submission inserts. -/
def c4_row : FindingsRow :=
  { finding_id := "FND_1", study_id := "STD_1", finding_type := "Other"
    finding_description := "rash", severity := "Mild"
    relationship_to_intervention := "Not Applicable"
    action_taken := SqlVal.null, outcome := "Resolved", sae_reported := false }

/-- Witness for claim C4 at a concrete non-adverse-event submission. -/
theorem c4_witness :
    c4_row.relationship_to_intervention = "Not Applicable" ∧
    c4_row.sae_reported = false :=
  c4_non_adverse_event_defaults c4_input "FND_1" "STD_1" c4_row
    (by decide) (by decide)

/-- Claim C6: the query gateway returns the tabular result unchanged on
success (with no error banner), and on any fault shows the error and
returns the empty result, so an empty return is ambiguous between no
rows and a failed query, and the gateway is total (no exception reaches
the caller). -/
theorem c6_execute_query (rows : List Nat) (msg : String) :
    (execute_query (QueryOutcome.ok rows)).rows = rows ∧
    (execute_query (QueryOutcome.ok rows)).error_shown = none ∧
    (execute_query (QueryOutcome.fault msg) : GatewayResult Nat).rows = [] ∧
    (execute_query (QueryOutcome.fault msg) : GatewayResult Nat).error_shown
      = some ("Query error: " ++ msg) ∧
    (execute_query (QueryOutcome.fault msg) : GatewayResult Nat).rows
      = (execute_query (QueryOutcome.ok ([] : List Nat))).rows :=
  ⟨rfl, rfl, rfl, rfl, rfl⟩

/-- Claim C8: the per-study enrollment progress value is 0 when the
target enrollment is 0 (the guard prevents any division), and the exact
ratio times 100 otherwise. -/
theorem c8_enroll_pct (c t : Nat) :
    (t = 0 → enroll_pct c t = 0) ∧
    (0 < t → enroll_pct c t = (c : ℚ) / (t : ℚ) * 100) := by
  constructor
  · intro h
    subst h
    unfold enroll_pct
    rw [if_neg (by decide)]
  · intro h
    unfold enroll_pct
    rw [if_pos h]

/-- Witness for claim C8: a zero-target study renders 0, and a study at
25 of 50 renders 50 percent. -/
theorem c8_witness : enroll_pct 3 0 = 0 ∧ enroll_pct 25 50 = 50 := by
  constructor
  · exact (c8_enroll_pct 3 0).1 rfl
  · have h := (c8_enroll_pct 25 50).2 (by norm_num)
    rw [h]
    norm_num

/-- Claim C9: with the required participant number and dates present, the
enrollment write goes through for every combination of the two
eligibility booleans; an invalid-looking combination (inclusion unmet or
exclusion met) only raises the non-blocking warning and never blocks the
insert. -/
theorem c9_eligibility_non_blocking
    (i : EnrollInput) (sid : String) (b1 b2 : Bool)
    (h1 : i.participant_number ≠ "") (h2 : i.enrollment_date ≠ "")
    (h3 : i.consent_date ≠ "") :
    (enroll_participant_form
        { i with inclusion_met := b1, exclusion_met := b2 } sid).isSome = true ∧
    eligibility_warning { i with inclusion_met := b1, exclusion_met := b2 }
      = (!b1 || b2) := by
  constructor
  · unfold enroll_participant_form
    rw [if_pos ⟨h1, h2, h3⟩]
    rfl
  · rfl

/-- Concrete enrollment input for the C9 witness: inclusion unmet and
exclusion met, the worst-looking combination. -/
def c9_input : EnrollInput :=
  { participant_number := "001", enrollment_date := "2025-10-12"
    consent_date := "2025-10-12", demographic_group := ""
    inclusion_met := false, exclusion_met := true }

/-- Witness for claim C9: the invalid-looking combination raises the
warning, yet the insert still happens. -/
theorem c9_witness :
    (enroll_participant_form
        { c9_input with inclusion_met := false, exclusion_met := true }
        "STD_1").isSome = true ∧
    eligibility_warning
        { c9_input with inclusion_met := false, exclusion_met := true }
      = (!false || true) :=
  c9_eligibility_non_blocking c9_input "STD_1" false true
    (by decide) (by decide) (by decide)

/-- Claim C10: an empty action-taken text on the Finding form is stored
as the SQL NULL keyword, not as an empty quoted string, and likewise an
empty demographic group on the Enroll Participant form. -/
theorem c10_null_for_empty_optionals :
    (∀ (i : FindingInput) (fid sid : String),
        i.finding_description ≠ "" → i.action_taken = "" →
        (finding_form i fid sid).map (fun r => r.action_taken)
          = some SqlVal.null) ∧
    (∀ (i : EnrollInput) (sid : String),
        i.participant_number ≠ "" → i.enrollment_date ≠ "" →
        i.consent_date ≠ "" → i.demographic_group = "" →
        (enroll_participant_form i sid).map (fun p => p.1.demographic_group)
          = some SqlVal.null) := by
  constructor
  · intro i fid sid hdesc hact
    unfold finding_form
    rw [if_pos hdesc]
    show some (if i.action_taken ≠ "" then SqlVal.str (escapeQuotes i.action_taken)
          else SqlVal.null) = some SqlVal.null
    rw [if_neg (not_not_intro hact)]
  · intro i sid h1 h2 h3 hdemo
    unfold enroll_participant_form
    rw [if_pos ⟨h1, h2, h3⟩]
    show some (if i.demographic_group ≠ "" then SqlVal.str i.demographic_group
          else SqlVal.null) = some SqlVal.null
    rw [if_neg (not_not_intro hdemo)]

/-- Concrete Finding input for the C10 witness: empty action taken. -/
def c10_finding_input : FindingInput :=
  { finding_type := "Lab Abnormality", severity := "Moderate"
    relationship_sel := "Not Related", sae_checked := false
    finding_description := "low hemoglobin", action_taken := ""
    outcome := "Ongoing" }

/-- Concrete enrollment input for the C10 witness: empty demographic
group. -/
def c10_enroll_input : EnrollInput :=
  { participant_number := "007", enrollment_date := "2025-10-12"
    consent_date := "2025-10-11", demographic_group := ""
    inclusion_met := true, exclusion_met := false }

/-- Witness for claim C10 on both forms at concrete inputs. -/
theorem c10_witness :
    (finding_form c10_finding_input "FND_2" "STD_2").map
        (fun r => r.action_taken) = some SqlVal.null ∧
    (enroll_participant_form c10_enroll_input "STD_2").map
        (fun p => p.1.demographic_group) = some SqlVal.null :=
  ⟨c10_null_for_empty_optionals.1 c10_finding_input "FND_2" "STD_2"
      (by decide) rfl,
   c10_null_for_empty_optionals.2 c10_enroll_input "STD_2"
      (by decide) (by decide) (by decide) rfl⟩

/-- Claim C5: a Create-Study submission passing the presence check always
executes; the study row carries status ACTIVE, enrollment 0 and the given
target, and it is followed by exactly one access-grant row binding the
current principal to the new study under the PI role. -/
theorem c5_create_study :
    (∀ (i : CreateStudyInput) (sid : String),
        i.study_name ≠ "" → i.study_number ≠ "" → i.pi_name ≠ "" →
        (create_study_form i sid).isSome = true) ∧
    (∀ (i : CreateStudyInput) (sid : String) (r : StudiesRow)
        (g : UserStudyAccessRow),
        create_study_form i sid = some (r, g) →
          r.study_status = "ACTIVE" ∧ r.current_enrollment = 0 ∧
          r.target_enrollment = i.target_enrollment ∧ r.study_id = sid ∧
          g.user_name = SqlVal.currentUser ∧ g.study_id = r.study_id ∧
          g.access_role = "PI" ∧ g.is_active = true) := by
  constructor
  · intro i sid h1 h2 h3
    unfold create_study_form
    rw [if_pos ⟨h1, h2, h3⟩]
    rfl
  · intro i sid r g h
    unfold create_study_form at h
    split at h
    · simp only [Option.some.injEq, Prod.mk.injEq] at h
      obtain ⟨hr, hg⟩ := h
      subst hr
      subst hg
      exact ⟨rfl, rfl, rfl, rfl, rfl, rfl, rfl, rfl⟩
    · exact absurd h (by simp)

/-- The Create-Study scenario input from the specification. -/
def c5_input : CreateStudyInput :=
  { study_name := "Trial A", study_number := "IRB-001", pi_name := "Dr. X"
    study_type := "Clinical Trial", study_phase := "Planning"
    target_enrollment := 50, study_description := "" }

/-- The study row the C5 scenario inserts. -/
def c5_row : StudiesRow :=
  { study_id := "STD_20251012000000", study_name := "Trial A"
    study_number := "IRB-001", principal_investigator := "Dr. X"
    study_phase := "Planning", study_type := "Clinical Trial"
    study_description := "", target_enrollment := 50
    current_enrollment := 0, study_status := "ACTIVE" }

/-- The access-grant row the C5 scenario inserts. -/
def c5_grant : UserStudyAccessRow :=
  { user_name := SqlVal.currentUser, study_id := "STD_20251012000000"
    access_role := "PI", is_active := true }

/-- Witness for claim C5 at the concrete specification scenario. -/
theorem c5_witness :
    (create_study_form c5_input "STD_20251012000000").isSome = true ∧
    (c5_row.study_status = "ACTIVE" ∧ c5_row.current_enrollment = 0 ∧
      c5_row.target_enrollment = c5_input.target_enrollment ∧
      c5_row.study_id = "STD_20251012000000" ∧
      c5_grant.user_name = SqlVal.currentUser ∧
      c5_grant.study_id = c5_row.study_id ∧
      c5_grant.access_role = "PI" ∧ c5_grant.is_active = true) :=
  ⟨c5_create_study.1 c5_input "STD_20251012000000"
      (by decide) (by decide) (by decide),
   c5_create_study.2 c5_input "STD_20251012000000" c5_row c5_grant (by decide)⟩

/-- Claim C7: every Search-Notes query carries the note-date lower bound
(whose widget default is 30 days before today); the case-insensitive
substring filter over title and content, with the same quote-doubling
escape as the write paths and an uppercased needle, is present exactly
when the search text is non-empty; results are ordered by note date
descending and capped at 100 rows. -/
theorem c7_search_notes (i : SearchInput) (today : Int) :
    WhereClause.dateLowerBound i.date_from ∈ (search_notes_query i).whereClauses ∧
    (i.search_text ≠ "" → (search_notes_query i).whereClauses =
        [WhereClause.dateLowerBound i.date_from,
         WhereClause.textFilter ((escapeQuotes i.search_text).toUpper)]) ∧
    (i.search_text = "" → (search_notes_query i).whereClauses =
        [WhereClause.dateLowerBound i.date_from]) ∧
    (search_notes_query i).orderByNoteDateDesc = true ∧
    (search_notes_query i).limit = 100 ∧
    search_date_from_default today = today - 30 := by
  have hfull : i.search_text ≠ "" → (search_notes_query i).whereClauses =
      [WhereClause.dateLowerBound i.date_from,
       WhereClause.textFilter ((escapeQuotes i.search_text).toUpper)] := by
    intro h
    show (if i.search_text ≠ "" then
            [WhereClause.dateLowerBound i.date_from] ++
              [WhereClause.textFilter ((escapeQuotes i.search_text).toUpper)]
          else [WhereClause.dateLowerBound i.date_from]) = _
    rw [if_pos h]
    rfl
  have hempty : i.search_text = "" → (search_notes_query i).whereClauses =
      [WhereClause.dateLowerBound i.date_from] := by
    intro h
    show (if i.search_text ≠ "" then
            [WhereClause.dateLowerBound i.date_from] ++
              [WhereClause.textFilter ((escapeQuotes i.search_text).toUpper)]
          else [WhereClause.dateLowerBound i.date_from]) = _
    rw [if_neg (not_not_intro h)]
  refine ⟨?_, hfull, hempty, rfl, rfl, rfl⟩
  by_cases h : i.search_text = ""
  · rw [hempty h]
    simp
  · rw [hfull h]
    simp

/-- Witness for claim C7 on a concrete non-empty search and a concrete
empty search. -/
theorem c7_witness :
    (search_notes_query { search_text := "fever", date_from := "2025-09-12" }).whereClauses
      = [WhereClause.dateLowerBound "2025-09-12",
         WhereClause.textFilter ((escapeQuotes "fever").toUpper)] ∧
    (search_notes_query { search_text := "", date_from := "2025-09-12" }).whereClauses
      = [WhereClause.dateLowerBound "2025-09-12"] :=
  ⟨(c7_search_notes { search_text := "fever", date_from := "2025-09-12" } 0).2.1
      (by decide),
   (c7_search_notes { search_text := "", date_from := "2025-09-12" } 0).2.2.1 rfl⟩

/-- Claim C1 (amended): on every write form the escaped free-text fields
(study name, PI name, study description; note title and content;
measurement name; finding description and action taken) are embedded as
the input with every single-quote doubled and no other character altered;
but the free-text fields protocol number (Create Study), measurement
value and unit (Observation), participant number and demographic group
(Enroll Participant) are embedded raw, with no quote-doubling defense. -/
theorem c1_escaping_amended :
    (∀ (i : CreateStudyInput) (sid : String) (r : StudiesRow)
        (g : UserStudyAccessRow),
        create_study_form i sid = some (r, g) →
          QuoteDoubling i.study_name r.study_name ∧
          QuoteDoubling i.pi_name r.principal_investigator ∧
          (i.study_description ≠ "" →
            QuoteDoubling i.study_description r.study_description) ∧
          r.study_number = i.study_number) ∧
    (∀ (i : QuickNoteInput) (nid sid : String) (r : ResearchNotesRow),
        quick_note_form i nid sid = some r →
          QuoteDoubling i.note_title r.note_title ∧
          QuoteDoubling i.note_text r.note_text) ∧
    (∀ (i : ObservationInput) (oid sid pid : String) (r : ObservationsRow),
        observation_form i oid sid pid = some r →
          QuoteDoubling i.measurement_name r.measurement_name ∧
          r.measurement_value = i.measurement_value ∧
          (i.measurement_unit ≠ "" →
            r.measurement_unit = SqlVal.str i.measurement_unit)) ∧
    (∀ (i : FindingInput) (fid sid : String) (r : FindingsRow),
        finding_form i fid sid = some r →
          QuoteDoubling i.finding_description r.finding_description ∧
          (i.action_taken ≠ "" →
            r.action_taken = SqlVal.str (escapeQuotes i.action_taken))) ∧
    (∀ (i : EnrollInput) (sid : String) (r : ParticipantsRow)
        (u : EnrollmentUpdate),
        enroll_participant_form i sid = some (r, u) →
          r.participant_number = i.participant_number ∧
          (i.demographic_group ≠ "" →
            r.demographic_group = SqlVal.str i.demographic_group)) := by
  refine ⟨?_, ?_, ?_, ?_, ?_⟩
  · intro i sid r g h
    unfold create_study_form at h
    split at h
    · simp only [Option.some.injEq, Prod.mk.injEq] at h
      obtain ⟨hr, hg⟩ := h
      subst hr
      refine ⟨quoteDoubling_escapeQuotes _, quoteDoubling_escapeQuotes _, ?_, rfl⟩
      intro hd
      show QuoteDoubling i.study_description
        (if i.study_description ≠ "" then escapeQuotes i.study_description else "")
      rw [if_pos hd]
      exact quoteDoubling_escapeQuotes _
    · exact absurd h (by simp)
  · intro i nid sid r h
    unfold quick_note_form at h
    split at h
    · simp only [Option.some.injEq] at h
      subst h
      exact ⟨quoteDoubling_escapeQuotes _, quoteDoubling_escapeQuotes _⟩
    · exact absurd h (by simp)
  · intro i oid sid pid r h
    unfold observation_form at h
    split at h
    · simp only [Option.some.injEq] at h
      subst h
      refine ⟨quoteDoubling_escapeQuotes _, rfl, ?_⟩
      intro hu
      show (if i.measurement_unit ≠ "" then SqlVal.str i.measurement_unit
            else SqlVal.null) = SqlVal.str i.measurement_unit
      rw [if_pos hu]
    · exact absurd h (by simp)
  · intro i fid sid r h
    unfold finding_form at h
    split at h
    · simp only [Option.some.injEq] at h
      subst h
      refine ⟨quoteDoubling_escapeQuotes _, ?_⟩
      intro ha
      show (if i.action_taken ≠ "" then SqlVal.str (escapeQuotes i.action_taken)
            else SqlVal.null) = SqlVal.str (escapeQuotes i.action_taken)
      rw [if_pos ha]
    · exact absurd h (by simp)
  · intro i sid r u h
    unfold enroll_participant_form at h
    split at h
    · simp only [Option.some.injEq, Prod.mk.injEq] at h
      obtain ⟨hr, hu⟩ := h
      subst hr
      refine ⟨rfl, ?_⟩
      intro hd
      show (if i.demographic_group ≠ "" then SqlVal.str i.demographic_group
            else SqlVal.null) = SqlVal.str i.demographic_group
      rw [if_pos hd]
    · exact absurd h (by simp)

/-- A measurement value containing a single-quote character, built from
code points 49, 39, 48. -/
def c1_bad_value : String := String.mk [Char.ofNat 49, squote, Char.ofNat 48]

/-- Observation submission carrying the quoted measurement value. -/
def c1_obs_input : ObservationInput :=
  { participant := "001", obs_date := "2025-10-12", visit_number := 1
    measurement_name := "BP", measurement_value := c1_bad_value
    measurement_unit := "" }

/-- Claim C1, counterexample: the measurement value of the Observation
form is a free-text input, yet the characters embedded into the INSERT
are the raw input: the embedded single quote is not doubled, so this
field is interpolated without the quote-doubling defense the claim
asserts for every free-text field. -/
theorem c1_counterexample :
    (observation_form c1_obs_input "OBS_1" "STD_1" "PART_1").map
        (fun r => r.measurement_value) = some c1_bad_value ∧
    c1_bad_value ≠ escapeQuotes c1_bad_value ∧
    quoteDoubledChk c1_bad_value.data c1_bad_value.data = false := by
  refine ⟨?_, ?_, ?_⟩ <;> decide

/-- Quick Note submission whose title contains a single-quote character. -/
def c1_note_input : QuickNoteInput :=
  { note_type := "Progress Note", note_title := c1_bad_value
    note_text := "details", note_priority := "Normal" }

/-- The row the C1 witness submission inserts. -/
def c1_note_row : ResearchNotesRow :=
  { note_id := "NOTE_1", study_id := "STD_1", note_type := "Progress Note"
    note_title := escapeQuotes c1_bad_value
    note_text := escapeQuotes "details"
    note_priority := "Normal", note_date := SqlVal.currentDate }

/-- Witness for the amended claim C1: on a concrete Quick Note whose
title contains a quote, the embedded title satisfies the quote-doubling
property. -/
theorem c1_witness :
    QuoteDoubling c1_note_input.note_title c1_note_row.note_title ∧
    QuoteDoubling c1_note_input.note_text c1_note_row.note_text :=
  c1_escaping_amended.2.1 c1_note_input "NOTE_1" "STD_1" c1_note_row (by decide)

/-- Claim C2: a successful enrollment produces exactly one participant
row and exactly one counter update of +1 against its study; folding any
sequence of write operations never decreases an existing study counter;
and N successful enrollments against the same study move its counter
from C to C + N. -/
theorem c2_enrollment_invariant :
    (∀ (i : EnrollInput) (sid : String) (r : ParticipantsRow)
        (u : EnrollmentUpdate),
        enroll_participant_form i sid = some (r, u) →
          u.study_id = sid ∧ u.increment = 1 ∧
          (∀ ps, participantsEffect sid (WriteOp.enroll i sid) ps = ps ++ [r]) ∧
          (∀ c, enrollmentCounter sid (WriteOp.enroll i sid) c = c + 1)) ∧
    (∀ (sid : String) (c0 : Nat) (ops : List WriteOp),
        c0 ≤ ops.foldl (fun c op => enrollmentCounter sid op c) c0) ∧
    (∀ (i : EnrollInput) (sid : String),
        (enroll_participant_form i sid).isSome = true →
        ∀ (c0 n : Nat),
          (List.replicate n (WriteOp.enroll i sid)).foldl
            (fun c op => enrollmentCounter sid op c) c0 = c0 + n) := by
  refine ⟨?_, ?_, ?_⟩
  · intro i sid r u h
    obtain ⟨hu1, hu2⟩ : u.study_id = sid ∧ u.increment = 1 := by
      unfold enroll_participant_form at h
      split at h
      · simp only [Option.some.injEq, Prod.mk.injEq] at h
        obtain ⟨hr, hu⟩ := h
        subst hu
        exact ⟨rfl, rfl⟩
      · exact absurd h (by simp)
    refine ⟨hu1, hu2, ?_, ?_⟩
    · intro ps
      simp only [participantsEffect]
      rw [h]
      simp
    · intro c
      simp only [enrollmentCounter]
      rw [if_pos ⟨trivial, by rw [h]; rfl⟩]
  · intro sid c0 ops
    induction ops generalizing c0 with
    | nil => exact Nat.le_refl c0
    | cons op ops ih =>
        rw [List.foldl_cons]
        exact le_trans (le_enrollmentCounter sid op c0)
          (ih (enrollmentCounter sid op c0))
  · intro i sid hs c0 n
    induction n generalizing c0 with
    | zero => simp
    | succ m ih =>
        rw [List.replicate_succ, List.foldl_cons]
        have hstep : enrollmentCounter sid (WriteOp.enroll i sid) c0 = c0 + 1 := by
          simp only [enrollmentCounter]
          rw [if_pos ⟨trivial, hs⟩]
        rw [hstep, ih (c0 + 1)]
        omega

/-- Concrete enrollment input for the C2 witness. -/
def c2_input : EnrollInput :=
  { participant_number := "002", enrollment_date := "2025-10-12"
    consent_date := "2025-10-12", demographic_group := "Adult"
    inclusion_met := true, exclusion_met := false }

/-- Witness for claim C2: two successful enrollments against the same
study move the counter from 5 to 5 + 2. -/
theorem c2_witness :
    (List.replicate 2 (WriteOp.enroll c2_input "STD_1")).foldl
      (fun c op => enrollmentCounter "STD_1" op c) 5 = 5 + 2 :=
  c2_enrollment_invariant.2.2 c2_input "STD_1" (by decide) 5 2

end ClinicalApp
